import Mathlib

/-
Verification of the real-time ticket-event distribution subsystem of
lorrc/service-desk-backend.

The Go sources are shallowly embedded: pure domain logic becomes Lean
functions, the relational store becomes an explicit `DB` record threaded
through the service functions, transactions become a combinator that
either commits the callback's writes or restores the pre-transaction
state, and the websocket hub's registries become records of finite maps
(a key Finset plus a lookup function per Go map).  Each embedded
definition is named after the Go symbol it mirrors.
-/

deriving instance DecidableEq for Except

namespace ServiceDesk

/-! ## Domain model (internal/core/domain/ticket.go) -/

/-- Model of `uuid.UUID`; `uuidNil` models `uuid.Nil`. -/
abbrev UUID := Nat

def uuidNil : UUID := 0

-- Constants for validation (ticket.go)
def MaxTitleLength : Nat := 255

def MaxDescriptionLength : Nat := 10000

-- TicketStatus constants (string-backed, as in Go)
def StatusOpen : String := "OPEN"

def StatusInProgress : String := "IN_PROGRESS"

def StatusClosed : String := "CLOSED"

/-- Mirrors `TicketStatus.IsValid`. -/
def statusIsValid (s : String) : Bool :=
  s == StatusOpen || s == StatusInProgress || s == StatusClosed

-- TicketPriority constants
def PriorityLow : String := "LOW"

def PriorityMedium : String := "MEDIUM"

def PriorityHigh : String := "HIGH"

/-- Mirrors `TicketPriority.IsValid`. -/
def priorityIsValid (p : String) : Bool :=
  p == PriorityLow || p == PriorityMedium || p == PriorityHigh

/-- Mirrors `domain.Ticket`.  `time.Time` values are modelled as `Nat`
instants supplied by the caller (`time.Now()` becomes a `now` argument). -/
structure Ticket where
  id : Int
  title : String
  description : String
  status : String
  priority : String
  requesterID : UUID
  assigneeID : Option UUID
  createdAt : Nat
  updatedAt : Option Nat
  deriving DecidableEq, Repr

/-- Mirrors `domain.TicketParams`. -/
structure TicketParams where
  title : String
  description : String
  priority : String
  requesterID : UUID
  deriving DecidableEq, Repr

/-- Application errors (internal/core/errors).  `validation` carries the
field/message pairs collected by `ValidationErrors` in `Add` order. -/
inductive Err where
  | validation (errs : List (String × String))
  | invalidStatus
  | invalidStatusTransition
  | cannotAssignClosed
  | forbidden
  | ticketNotFound
  | commentBodyRequired
  | infra (tag : String)
  deriving DecidableEq, Repr

/-- Mirrors the body of `TicketParams.Validate`: every violated field is
added to the `ValidationErrors` collection; nothing short-circuits.
Go `len` on a string counts bytes, hence `String.utf8ByteSize`. -/
def validateTicketParams (p : TicketParams) : List (String × String) :=
  (if p.title == "" then [("title", "Title is required")]
   else if MaxTitleLength < p.title.utf8ByteSize then
     [("title", "Title must be 255 characters or less")]
   else [])
  ++ (if MaxDescriptionLength < p.description.utf8ByteSize then
        [("description", "Description must be 10,000 characters or less")]
      else [])
  ++ (if !priorityIsValid p.priority then
        [("priority", "Priority must be LOW, MEDIUM, or HIGH")]
      else [])
  ++ (if p.requesterID == uuidNil then
        [("requesterId", "Requester ID is required")]
      else [])

/-- Mirrors `TicketParams.Validate`: `none` on success, the collected
errors otherwise (`if errs.HasErrors() { return errs }`). -/
def TicketParams.validate (p : TicketParams) : Option Err :=
  let errs := validateTicketParams p
  if errs.isEmpty then none else some (.validation errs)

/-- Mirrors `domain.NewTicket`: validation, then a ticket with status
OPEN and `CreatedAt` stamped. -/
def newTicket (p : TicketParams) (now : Nat) : Except Err Ticket :=
  match p.validate with
  | some e => .error e
  | none => .ok
      { id := 0
        title := p.title
        description := p.description
        status := StatusOpen
        priority := p.priority
        requesterID := p.requesterID
        assigneeID := none
        createdAt := now
        updatedAt := none }

/-- Mirrors the `validTransitions` map: the allowed targets for each
status; a status that is not a key yields the empty list (missing map
key in Go). -/
def validTransitions (s : String) : List String :=
  if s == StatusOpen then [StatusInProgress, StatusClosed]
  else if s == StatusInProgress then [StatusOpen, StatusClosed]
  else []

/-- Mirrors `Ticket.CanTransitionTo`. -/
def Ticket.canTransitionTo (t : Ticket) (newStatus : String) : Bool :=
  (validTransitions t.status).contains newStatus

/-- Mirrors `Ticket.UpdateStatus`: invalid target status is rejected
first, then the transition table is consulted; on success the status is
mutated and `UpdatedAt` stamped. -/
def Ticket.updateStatus (t : Ticket) (newStatus : String) (now : Nat) :
    Except Err Ticket :=
  if !statusIsValid newStatus then .error .invalidStatus
  else if !t.canTransitionTo newStatus then .error .invalidStatusTransition
  else .ok { t with status := newStatus, updatedAt := some now }

/-- Mirrors `Ticket.Assign`: a nil assignee is rejected with a fresh
(empty) `ValidationErrors`, then the closed-ticket rule is enforced;
on success the assignee is set and `UpdatedAt` stamped. -/
def Ticket.assign (t : Ticket) (assigneeID : UUID) (now : Nat) :
    Except Err Ticket :=
  if assigneeID == uuidNil then .error (.validation [])
  else if t.status == StatusClosed then .error .cannotAssignClosed
  else .ok { t with assigneeID := some assigneeID, updatedAt := some now }

/-! ## Events and comments (domain) -/

/-- Event type constants (`domain.EventType`). -/
def EventTicketCreated : String := "TICKET_CREATED"

def EventStatusUpdated : String := "STATUS_UPDATED"

def EventTicketAssigned : String := "TICKET_ASSIGNED"

def EventCommentAdded : String := "COMMENT_ADDED"

/-- Modelled from the spec: `domain.Comment` is not under src/ (only its
callers, repository and snapshot builder are).  Per the spec and the
snapshot shape it carries an id, the ticket id, the author and a body. -/
structure Comment where
  id : Int
  ticketID : Int
  authorID : UUID
  body : String
  createdAt : Nat
  deriving DecidableEq, Repr

/-- The immutable snapshot serialized into an event's payload
(`domain.NewTicketSnapshot` / `domain.NewCommentSnapshot` followed by
`json.Marshal`); we keep the snapshotted value itself. -/
inductive Payload where
  | ticketSnap (t : Ticket)
  | commentSnap (c : Comment)
  | empty
  deriving DecidableEq, Repr

/-- Mirrors `domain.Event` (id assigned by the store on append). -/
structure Event where
  id : Int
  ticketID : Int
  type : String
  payload : Payload
  actorID : UUID
  deriving DecidableEq, Repr

/-- Helper constructor for event values. -/
def mkEvent (i tid : Int) (ty : String) (pl : Payload) (actor : UUID) : Event :=
  { id := i, ticketID := tid, type := ty, payload := pl, actorID := actor }

/-! ## Relational store and transactional writer
(internal/adapters/secondary/postgres) -/

/-- The persisted state: the tickets, ticket_events and comments tables.
`ticket_events.id` is a `BIGSERIAL`, modelled by `nextEventID`. -/
structure DB where
  tickets : List Ticket
  events : List Event
  comments : List Comment
  nextTicketID : Int
  nextEventID : Int
  nextCommentID : Int
  deriving DecidableEq, Repr

/-- Fault injection points: each flag makes the corresponding fallible
step of a mutation fail (repository insert or update, payload
marshalling, transaction commit). -/
structure Faults where
  ticketCreate : Bool
  ticketUpdate : Bool
  eventCreate : Bool
  marshal : Bool
  commit : Bool
  commentCreate : Bool
  deriving DecidableEq, Repr

def noFaults : Faults :=
  { ticketCreate := false, ticketUpdate := false, eventCreate := false
    marshal := false, commit := false, commentCreate := false }

/-- Mirrors `TicketRepository.Create` (INSERT ... RETURNING): assigns
the next ticket id and appends the row. -/
def ticketRepoCreate (f : Faults) (db : DB) (t : Ticket) :
    Except Err (Ticket × DB) :=
  if f.ticketCreate then .error (.infra "ticket insert") else
  let nt := { t with id := db.nextTicketID }
  .ok (nt, { db with tickets := db.tickets ++ [nt],
                     nextTicketID := db.nextTicketID + 1 })

/-- Mirrors `TicketRepository.GetByID`. -/
def ticketRepoGetByID (db : DB) (tid : Int) : Option Ticket :=
  db.tickets.find? (fun t => t.id == tid)

/-- Mirrors `TicketRepository.Update` (UPDATE ... RETURNING): replaces
the row with the matching id and returns it. -/
def ticketRepoUpdate (f : Faults) (db : DB) (t : Ticket) :
    Except Err (Ticket × DB) :=
  if f.ticketUpdate then .error (.infra "ticket update") else
  match ticketRepoGetByID db t.id with
  | none => .error .ticketNotFound
  | some _ => .ok (t,
      { db with tickets :=
          db.tickets.map (fun u => if u.id == t.id then t else u) })

/-- Mirrors `TicketEventRepository.Create` (INSERT ... RETURNING): the
BIGSERIAL assigns the next id, strictly larger than every existing one. -/
def eventRepoCreate (f : Faults) (db : DB) (e : Event) :
    Except Err (Event × DB) :=
  if f.eventCreate then .error (.infra "event insert") else
  let ne := { e with id := db.nextEventID }
  .ok (ne, { db with events := db.events ++ [ne],
                     nextEventID := db.nextEventID + 1 })

/-- Mirrors `CommentRepository.Create`. -/
def commentRepoCreate (f : Faults) (db : DB) (c : Comment) :
    Except Err (Comment × DB) :=
  if f.commentCreate then .error (.infra "comment insert") else
  let nc := { c with id := db.nextCommentID }
  .ok (nc, { db with comments := db.comments ++ [nc],
                     nextCommentID := db.nextCommentID + 1 })

/-- Mirrors `marshalEventPayload` (a `json.Marshal` wrapper that can
fail). -/
def marshalEventPayload (f : Faults) (p : Payload) : Except Err Payload :=
  if f.marshal then .error (.infra "marshal") else .ok p

/-- Mirrors `TransactionManager.WithTransaction`: the callback runs
against the current state; an error from the callback rolls every write
back (the caller keeps the pre-transaction `DB`), a commit failure does
the same, and success commits all of the callback's writes together. -/
def withTransaction (commitFails : Bool) (db : DB)
    (fn : DB → Except Err (α × DB)) : Except Err α × DB :=
  match fn db with
  | .error e => (.error e, db)
  | .ok (a, db1) =>
      if commitFails then (.error (.infra "commit"), db)
      else (.ok a, db1)

/-! ## Services (internal/core/services)
The authorizer `ports.AuthorizationService.Can` is modelled as a boolean
oracle `az : UUID → String → Bool` (actor, permission). -/

/-- Mirrors `ports.CreateTicketParams`. -/
structure CreateTicketParams where
  title : String
  description : String
  priority : String
  requesterID : UUID
  deriving DecidableEq, Repr

/-- Mirrors `ports.UpdateStatusParams`. -/
structure UpdateStatusParams where
  ticketID : Int
  status : String
  actorID : UUID
  deriving DecidableEq, Repr

/-- Mirrors `ports.AssignTicketParams`. -/
structure AssignTicketParams where
  ticketID : Int
  assigneeID : UUID
  actorID : UUID
  deriving DecidableEq, Repr

/-- Mirrors `ports.CreateCommentParams`. -/
structure CreateCommentParams where
  ticketID : Int
  actorID : UUID
  body : String
  deriving DecidableEq, Repr

/-- Mirrors `TicketService.CreateTicket`: authorize, validate via
`NewTicket`, then persist the ticket row and exactly one TICKET_CREATED
event inside one transaction. -/
def createTicketService (f : Faults) (az : UUID → String → Bool)
    (db : DB) (p : CreateTicketParams) (now : Nat) : Except Err Ticket × DB :=
  if !az p.requesterID "tickets:create" then (.error .forbidden, db) else
  match newTicket { title := p.title, description := p.description,
                    priority := p.priority, requesterID := p.requesterID } now with
  | .error e => (.error e, db)
  | .ok t =>
      withTransaction f.commit db (fun db0 => do
        let (nt, db1) ← ticketRepoCreate f db0 t
        let pl ← marshalEventPayload f (.ticketSnap nt)
        let (_, db2) ← eventRepoCreate f db1
          { id := 0, ticketID := nt.id, type := EventTicketCreated,
            payload := pl, actorID := p.requesterID }
        .ok (nt, db2))

/-- Mirrors `TicketService.GetTicket`: read permission, fetch, then the
owner / assignee / read-all access rule. -/
def getTicketService (az : UUID → String → Bool) (db : DB)
    (ticketID : Int) (viewerID : UUID) : Except Err Ticket :=
  if !az viewerID "tickets:read" then .error .forbidden else
  match ticketRepoGetByID db ticketID with
  | none => .error .ticketNotFound
  | some t =>
      if t.requesterID == viewerID || t.assigneeID == some viewerID then .ok t
      else if az viewerID "tickets:read:all" then .ok t
      else .error .forbidden

/-- Mirrors `TicketService.UpdateStatus`: authorize, fetch, apply the
domain transition (which can reject), then persist the updated row and
exactly one STATUS_UPDATED event inside one transaction. -/
def updateStatusService (f : Faults) (az : UUID → String → Bool)
    (db : DB) (p : UpdateStatusParams) (now : Nat) : Except Err Ticket × DB :=
  if !az p.actorID "tickets:update:status" then (.error .forbidden, db) else
  match ticketRepoGetByID db p.ticketID with
  | none => (.error .ticketNotFound, db)
  | some t =>
      match t.updateStatus p.status now with
      | .error e => (.error e, db)
      | .ok t1 =>
          withTransaction f.commit db (fun db0 => do
            let (st, db1) ← ticketRepoUpdate f db0 t1
            let pl ← marshalEventPayload f (.ticketSnap st)
            let (_, db2) ← eventRepoCreate f db1
              { id := 0, ticketID := st.id, type := EventStatusUpdated,
                payload := pl, actorID := p.actorID }
            .ok (st, db2))

/-- Mirrors `TicketService.AssignTicket`: fetch through `GetTicket`
(access control), check the assign permission, apply `Ticket.Assign`
(which can reject), then persist row plus one TICKET_ASSIGNED event in
one transaction. -/
def assignTicketService (f : Faults) (az : UUID → String → Bool)
    (db : DB) (p : AssignTicketParams) (now : Nat) : Except Err Ticket × DB :=
  match getTicketService az db p.ticketID p.actorID with
  | .error e => (.error e, db)
  | .ok t =>
      if !az p.actorID "tickets:assign" then (.error .forbidden, db) else
      match t.assign p.assigneeID now with
      | .error e => (.error e, db)
      | .ok t1 =>
          withTransaction f.commit db (fun db0 => do
            let (st, db1) ← ticketRepoUpdate f db0 t1
            let pl ← marshalEventPayload f (.ticketSnap st)
            let (_, db2) ← eventRepoCreate f db1
              { id := 0, ticketID := st.id, type := EventTicketAssigned,
                payload := pl, actorID := p.actorID }
            .ok (st, db2))

/-- Modelled from the spec: `domain.NewComment` is not under src/; per
the error taxonomy a comment requires a non-empty body
(`ErrCommentBodyRequired`). -/
def newComment (p : CreateCommentParams) (now : Nat) : Except Err Comment :=
  if p.body == "" then .error .commentBodyRequired
  else .ok { id := 0, ticketID := p.ticketID, authorID := p.actorID,
             body := p.body, createdAt := now }

/-- Mirrors `CommentService.CreateComment`
(internal/core/services/comment_service.go): authorize, access-check the
ticket, validate, then persist the comment row directly — outside any
`WithTransaction` call and without appending a `ticket_events` row.
The COMMENT_ADDED event is only handed to the in-memory broadcaster. -/
def createCommentService (f : Faults) (az : UUID → String → Bool)
    (db : DB) (p : CreateCommentParams) (now : Nat) : Except Err Comment × DB :=
  if !az p.actorID "comments:create" then (.error .forbidden, db) else
  match getTicketService az db p.ticketID p.actorID with
  | .error e => (.error e, db)
  | .ok _ =>
      match newComment p now with
      | .error e => (.error e, db)
      | .ok c =>
          match commentRepoCreate f db c with
          | .error e => (.error e, db)
          | .ok (nc, db1) => (.ok nc, db1)

/-! ## Catch-up reader
(postgres queries/tickets.sql `ListTicketEvents` and
`TicketEventRepository.ListByTicketID`) -/

/-- Mirrors the `ListTicketEvents` SQL: rows of the ticket with
`id > afterID`, ascending by id, truncated to `limit`.  The events table
is kept in id order (BIGSERIAL append), so the filtered sublist is the
ascending result set. -/
def listTicketEvents (log : List Event) (ticketID afterID : Int)
    (limit : Nat) : List Event :=
  ((log.filter (fun e => e.ticketID == ticketID && afterID < e.id)).take limit)

/-- The events table invariant: ids strictly increase along the log
(BIGSERIAL assignment; `eventRepoCreate` maintains it). -/
abbrev SortedIds (log : List Event) : Prop :=
  log.Pairwise (fun a b => a.id < b.id)

/-! ## HTTP event-query parsing
(internal/adapters/primary/http/ticket_handler.go) -/

def defaultEventsLimit : Int := 50

def maxEventsLimit : Int := 200

/-- Mirrors `TicketHandler.parseEventQuery`.  Query parameters are
modelled as already-lexed optional integers (`none` = absent;
`strconv` failures behave like the negative/non-positive branches).
Note the code rejects `limit > maxEventsLimit` with a field error — it
does not clamp. -/
def parseEventQuery (after : Option Int) (limit : Option Int) :
    Except Err (Int × Int) :=
  let afterPair : List (String × String) × Int :=
    match after with
    | none => ([], 0)
    | some v =>
        if v < 0 then ([("after", "after must be a positive integer")], 0)
        else ([], v)
  let limitPair : List (String × String) × Int :=
    match limit with
    | none => ([], defaultEventsLimit)
    | some v =>
        if v ≤ 0 then ([("limit", "limit must be a positive integer")], defaultEventsLimit)
        else ([], v)
  let maxErrs : List (String × String) :=
    if maxEventsLimit < limitPair.2 then [("limit", "limit exceeds maximum")] else []
  let errs := afterPair.1 ++ limitPair.1 ++ maxErrs
  if errs.isEmpty then .ok (afterPair.2, limitPair.2)
  else .error (.validation errs)

/-! ## Websocket hub registries
(internal/adapters/primary/websocket/hub.go, client.go)

Clients are identified by a `Nat` handle (the `*Client` pointer).  A Go
map is embedded as the pair of its key set and its lookup function; a
lookup off the key set is never consulted by the embedded operations,
exactly as a Go map read of a missing key is guarded by an `ok` check in
the source. -/

/-- The hub's two registries: `clients : map[uuid.UUID]map[*Client]bool`
and `rooms : map[int64]map[*Client]bool`. -/
structure HubState where
  clientKeys : Finset UUID
  clientConns : UUID → Finset Nat
  roomKeys : Finset Int
  roomConns : Int → Finset Nat

/-- The per-connection state the hub touches: the owning user, the
subscription set (`Client.Subscriptions`, the cleanup path's source of
truth) and the `closeOnce`-guarded send-channel state.  `closeCount`
counts how many times the channel has actually been closed. -/
structure ClientInfo where
  userID : UUID
  subs : Finset Int
  sendClosed : Bool
  closeCount : Nat
  deriving DecidableEq

/-- Mirrors `Client.CloseSend`: `closeOnce.Do(close)` closes the channel
only on the first call. -/
def closeSend (c : ClientInfo) : ClientInfo :=
  if c.sendClosed then c
  else { c with sendClosed := true, closeCount := c.closeCount + 1 }

/-- Mirrors `Hub.registerClient`: ensure the user's connection set
exists and add the connection. -/
def registerClient (h : HubState) (cid : Nat) (c : ClientInfo) : HubState :=
  { h with
    clientKeys := insert c.userID h.clientKeys
    clientConns := fun u =>
      if u = c.userID then
        insert cid (if c.userID ∈ h.clientKeys then h.clientConns c.userID else ∅)
      else h.clientConns u }

/-- Mirrors `Hub.subscribeClientToTicket`: create the room on first
subscribe, add the connection, and record the subscription on the
client. -/
def subscribeClientToTicket (h : HubState) (cid : Nat) (c : ClientInfo)
    (ticketID : Int) : HubState × ClientInfo :=
  ({ h with
     roomKeys := insert ticketID h.roomKeys
     roomConns := fun t =>
       if t = ticketID then
         insert cid (if ticketID ∈ h.roomKeys then h.roomConns ticketID else ∅)
       else h.roomConns t },
   { c with subs := insert ticketID c.subs })

/-- Mirrors `Hub.unsubscribeClientFromTicket`: if the room exists,
remove the connection and delete the room when it becomes empty; always
drop the client-side subscription. -/
def unsubscribeClientFromTicket (h : HubState) (cid : Nat) (c : ClientInfo)
    (ticketID : Int) : HubState × ClientInfo :=
  ({ h with
     roomKeys :=
       if ticketID ∈ h.roomKeys ∧ (h.roomConns ticketID).erase cid = ∅ then
         h.roomKeys.erase ticketID
       else h.roomKeys
     roomConns := fun t =>
       if t = ticketID ∧ ticketID ∈ h.roomKeys then (h.roomConns t).erase cid
       else h.roomConns t },
   { c with subs := c.subs.erase ticketID })

/-- Mirrors `Hub.unregisterClient`: remove the connection from the user
index (dropping the user entry when its last connection goes), remove it
from every room in its subscription set (dropping rooms that become
empty), and close the send channel through `CloseSend`.  The Go loops
iterate per key; since distinct keys are updated independently the
result is expressed key-wise.  The subscription set itself is not
cleared (the source does not clear it either). -/
def unregisterClient (h : HubState) (cid : Nat) (c : ClientInfo) :
    HubState × ClientInfo :=
  ({ clientKeys := h.clientKeys.filter (fun u =>
       ¬(u = c.userID ∧ cid ∈ h.clientConns u ∧ (h.clientConns u).erase cid = ∅))
     clientConns := fun u =>
       if u = c.userID ∧ u ∈ h.clientKeys then (h.clientConns u).erase cid
       else h.clientConns u
     roomKeys := h.roomKeys.filter (fun t =>
       ¬(t ∈ c.subs ∧ (h.roomConns t).erase cid = ∅))
     roomConns := fun t =>
       if t ∈ c.subs ∧ t ∈ h.roomKeys then (h.roomConns t).erase cid
       else h.roomConns t },
   closeSend c)

/-- Mirrors `NewHub`: empty registries. -/
def newHub : HubState :=
  { clientKeys := ∅, clientConns := fun _ => ∅
    roomKeys := ∅, roomConns := fun _ => ∅ }

/-- Extensional equality of hub registries (the maps are compared as
maps). -/
def HubEq (h1 h2 : HubState) : Prop :=
  h1.clientKeys = h2.clientKeys ∧ (∀ u ∈ h1.clientKeys, h1.clientConns u = h2.clientConns u)
  ∧ h1.roomKeys = h2.roomKeys ∧ (∀ t ∈ h1.roomKeys, h1.roomConns t = h2.roomConns t)

/-- The room-registry invariant of claim C9: every ticket id present in
the rooms map has at least one member. -/
def NoEmptyRooms (h : HubState) : Prop :=
  ∀ t ∈ h.roomKeys, h.roomConns t ≠ ∅

/-- Mirrors `Client.handleSubscribe` processing a `SUBSCRIBE_TO_TICKET`
control message: non-positive ticket ids are dropped; otherwise the
session is subscribed.  The authorizer `az` is in scope for the
connection (the process holds one) but the handler never consults it
(the source carries a TODO for the missing authorization check), so it
is an unused argument here, exactly as in the code path. -/
def handleSubscribe (az : UUID → String → Bool) (h : HubState) (cid : Nat)
    (c : ClientInfo) (ticketID : Int) : HubState × ClientInfo :=
  if ticketID ≤ 0 then (h, c)
  else subscribeClientToTicket h cid c ticketID

/-! ## Hub dispatch loop (Hub.Run / Hub.broadcastEvent)

An operational model of the hub goroutine.  `Hub.Run` is a single
goroutine looping over a `select` on `Register`, `Unregister` and the
buffered `broadcast` channel; `broadcastEvent` is a plain method call
executed by that same goroutine, which sends the event to each room
member's buffered `Send` channel with a non-blocking `select`, and on a
full buffer executes `h.Unregister <- client`.

`Register` and `Unregister` are unbuffered channels, and the only
receive operations on them in the whole program are the arms of this
`Run` loop's own `select` (client.go's `ReadPump` only sends).  A send
on an unbuffered channel completes only when a receiver is at its
receive; while the Run goroutine is inside `broadcastEvent` it is not at
its `select`, so a configuration whose next action is that send has no
successor. -/

/-- A bounded outbound queue (`Client.Send`, capacity 256 in the
source; the capacity is a parameter here). -/
structure WQueue where
  cap : Nat
  buf : List Event
  deriving DecidableEq, Repr

/-- Where the hub goroutine is in its loop. -/
inductive HubPhase where
  | atSelect
  | dispatching (ev : Event) (pending : List Nat)
  | blockedOnEvict (target : Nat) (ev : Event) (pending : List Nat)
  deriving DecidableEq, Repr

/-- A configuration of the hub goroutine: its phase, the buffered
broadcast channel's contents, each client's outbound queue, and the
room membership (as the member list the `for client := range room` copy
iterates over). -/
structure DispatchCfg where
  phase : HubPhase
  broadcastBuf : List Event
  queues : List (Nat × WQueue)
  roomMembers : List (Int × List Nat)
  deriving DecidableEq, Repr

def membersOf (rooms : List (Int × List Nat)) (tid : Int) :
    Option (List Nat) :=
  (rooms.find? (fun r => r.1 == tid)).map (fun r => r.2)

def qLookup (qs : List (Nat × WQueue)) (cid : Nat) : Option WQueue :=
  (qs.find? (fun q => q.1 == cid)).map (fun q => q.2)

def qUpdate (qs : List (Nat × WQueue)) (cid : Nat) (q : WQueue) :
    List (Nat × WQueue) :=
  qs.map (fun r => if r.1 == cid then (cid, q) else r)

/-- One step of the hub goroutine.  `none` means the goroutine cannot
step: either it idles at its `select` with nothing queued (benign), or
it is stuck in `blockedOnEvict` — the send `h.Unregister <- client`
cannot rendezvous because the channel's sole receiver is this same
goroutine's `select`, which it will never reach again. -/
def hubStep (cfg : DispatchCfg) : Option DispatchCfg :=
  match cfg.phase with
  | .atSelect =>
      match cfg.broadcastBuf with
      | [] => none
      | ev :: rest =>
          match membersOf cfg.roomMembers ev.ticketID with
          | none => some { cfg with broadcastBuf := rest }
          | some mem =>
              some { cfg with broadcastBuf := rest,
                              phase := .dispatching ev mem }
  | .dispatching _ [] => some { cfg with phase := .atSelect }
  | .dispatching ev (cid :: rest) =>
      match qLookup cfg.queues cid with
      | none => some { cfg with phase := .dispatching ev rest }
      | some q =>
          if q.buf.length < q.cap then
            some { cfg with
                   queues := qUpdate cfg.queues cid { q with buf := q.buf ++ [ev] },
                   phase := .dispatching ev rest }
          else
            some { cfg with phase := .blockedOnEvict cid ev rest }
  | .blockedOnEvict _ _ _ => none

/-- Runs `n` steps of the hub goroutine, stopping at a stuck
configuration. -/
def runSteps : Nat → DispatchCfg → DispatchCfg
  | 0, cfg => cfg
  | n + 1, cfg =>
      match hubStep cfg with
      | none => cfg
      | some cfg1 => runSteps n cfg1

/-! ## Sample data for concrete evaluations -/

def azAll : UUID → String → Bool := fun _ _ => true

def tOpen : Ticket :=
  { id := 1, title := "Printer down", description := "It is broken"
    status := StatusOpen, priority := PriorityHigh, requesterID := 7
    assigneeID := none, createdAt := 0, updatedAt := none }

def tClosed : Ticket := { tOpen with status := StatusClosed }

def ev0 : Event :=
  { id := 1, ticketID := 1, type := EventTicketCreated
    payload := .ticketSnap tOpen, actorID := 7 }

def db0 : DB :=
  { tickets := [tOpen], events := [ev0], comments := []
    nextTicketID := 2, nextEventID := 2, nextCommentID := 1 }

def dbClosed : DB := { db0 with tickets := [tClosed] }

def cInfo : ClientInfo :=
  { userID := 7, subs := ∅, sendClosed := false, closeCount := 0 }

def cInfo5 : ClientInfo :=
  { userID := 7, subs := {5}, sendClosed := false, closeCount := 0 }

/-- A hub with user 7 connected once (session 1) and subscribed to
ticket 5. -/
def hubSample : HubState :=
  { clientKeys := {7}
    clientConns := fun u => if u = 7 then {1} else ∅
    roomKeys := {5}
    roomConns := fun t => if t = 5 then {1} else ∅ }

def evOld : Event :=
  { id := 1, ticketID := 1, type := EventCommentAdded
    payload := .empty, actorID := 7 }

def ev7 : Event :=
  { id := 2, ticketID := 1, type := EventCommentAdded
    payload := .empty, actorID := 7 }

def evB : Event :=
  { id := 2, ticketID := 2, type := EventCommentAdded
    payload := .empty, actorID := 7 }

def ev3 : Event :=
  { id := 3, ticketID := 1, type := EventStatusUpdated
    payload := .empty, actorID := 7 }

def ev4 : Event :=
  { id := 4, ticketID := 1, type := EventTicketAssigned
    payload := .empty, actorID := 7 }

/-- Sample event log: ids ascend across tickets 1 and 2. -/
def logSample : List Event := [ev0, evB, ev3]

def newSample : List Event := [ev4]

/-- A room for ticket 1 with two members: client 1 whose outbound queue
is at capacity, and client 2 with room to spare. -/
def slowConsumerCfg : DispatchCfg :=
  { phase := .atSelect
    broadcastBuf := [ev7]
    queues := [(1, { cap := 1, buf := [evOld] }), (2, { cap := 256, buf := [] })]
    roomMembers := [(1, [1, 2])] }

/-- The four legal status transitions of the spec, as a predicate on the
(current, requested) pair. -/
def allowedTransition (s x : String) : Prop :=
  (s = StatusOpen ∧ x = StatusInProgress)
  ∨ (s = StatusInProgress ∧ x = StatusOpen)
  ∨ (s = StatusOpen ∧ x = StatusClosed)
  ∨ (s = StatusInProgress ∧ x = StatusClosed)

/-! ## Helper lemmas -/

theorem statusIsValid_iff (x : String) :
    statusIsValid x = true ↔
      (x = StatusOpen ∨ x = StatusInProgress ∨ x = StatusClosed) := by
  simp [statusIsValid, or_assoc]

theorem canTransitionTo_iff (t : Ticket) (x : String) :
    t.canTransitionTo x = true ↔ x ∈ validTransitions t.status := by
  simp [Ticket.canTransitionTo]

theorem updateStatus_ok_iff (t : Ticket) (x : String) (now : Nat) :
    (∃ t1, t.updateStatus x now = .ok t1) ↔
      (statusIsValid x = true ∧ t.canTransitionTo x = true) := by
  unfold Ticket.updateStatus
  by_cases h1 : statusIsValid x <;> by_cases h2 : t.canTransitionTo x <;>
    simp [h1, h2]

theorem valid_canTransition_iff_allowed (t : Ticket) (x : String) :
    (statusIsValid x = true ∧ t.canTransitionTo x = true) ↔
      allowedTransition t.status x := by
  rw [statusIsValid_iff, canTransitionTo_iff]
  unfold validTransitions allowedTransition
  by_cases hs1 : t.status = StatusOpen <;>
    by_cases hs2 : t.status = StatusInProgress <;>
      simp_all [StatusOpen, StatusInProgress, StatusClosed] <;> tauto

/-! ## Claim theorems -/

/-- C2: for every ticket, `UpdateStatus(new)` succeeds exactly when the
pair (current status, new) is OPEN→IN_PROGRESS, IN_PROGRESS→OPEN,
OPEN→CLOSED or IN_PROGRESS→CLOSED; once a ticket is CLOSED, every
further `UpdateStatus(x)` over the status enum fails with
InvalidStateTransition, and at the service level the store is left
untouched — the status stays CLOSED and no event is appended. -/
theorem C2_status_machine :
    (∀ (t : Ticket) (x : String) (now : Nat),
        (∃ t1, t.updateStatus x now = .ok t1) ↔ allowedTransition t.status x)
    ∧ (∀ (t : Ticket) (x : String) (now : Nat),
        t.status = StatusClosed → statusIsValid x = true →
          t.updateStatus x now = .error .invalidStatusTransition)
    ∧ (∀ (f : Faults) (az : UUID → String → Bool) (db : DB)
        (p : UpdateStatusParams) (now : Nat) (t : Ticket),
        az p.actorID "tickets:update:status" = true →
        ticketRepoGetByID db p.ticketID = some t →
        t.status = StatusClosed → statusIsValid p.status = true →
          updateStatusService f az db p now =
            (.error .invalidStatusTransition, db)) := by
  have closedCase : ∀ (t : Ticket) (x : String) (now : Nat),
      t.status = StatusClosed → statusIsValid x = true →
        t.updateStatus x now = .error .invalidStatusTransition := by
    intro t x now hcl hv
    unfold Ticket.updateStatus
    have hc2 : t.canTransitionTo x = false := by
      simp [Ticket.canTransitionTo, validTransitions, hcl, StatusClosed,
        StatusOpen, StatusInProgress]
    simp [hv, hc2]
  refine ⟨?_, closedCase, ?_⟩
  · intro t x now
    rw [updateStatus_ok_iff, valid_canTransition_iff_allowed]
  · intro f az db p now t haz hget hc hv
    unfold updateStatusService
    simp [haz, hget, closedCase t p.status now hc hv]

/-- C2 witness: the closed sample ticket rejects a reopen request, and
the service leaves the closed sample store untouched. -/
theorem C2_status_machine_witness :
    (tClosed.status = StatusClosed ∧ statusIsValid StatusOpen = true
      ∧ azAll (7 : UUID) "tickets:update:status" = true
      ∧ ticketRepoGetByID dbClosed 1 = some tClosed)
    ∧ tClosed.updateStatus StatusOpen 3 = .error .invalidStatusTransition
    ∧ updateStatusService noFaults azAll dbClosed
        { ticketID := 1, status := StatusOpen, actorID := 7 } 3 =
        (.error .invalidStatusTransition, dbClosed) :=
  ⟨⟨by decide, by decide, by decide, by decide⟩,
    C2_status_machine.2.1 tClosed StatusOpen 3 (by decide) (by decide),
    C2_status_machine.2.2 noFaults azAll dbClosed
      { ticketID := 1, status := StatusOpen, actorID := 7 } 3 tClosed
      (by decide) (by decide) (by decide) (by decide)⟩

/-- C4 counterexample: `Assign(uuid.Nil)` on a CLOSED ticket fails with
the nil-assignee validation error, not with CannotAssignClosed — the
nil check in `Ticket.Assign` runs before the closed-ticket rule, so the
claim's "always fails with CannotAssignClosed" does not hold at the nil
assignee id. -/
theorem C4_counterexample :
    tClosed.status = StatusClosed
    ∧ tClosed.assign uuidNil 5 = .error (.validation [])
    ∧ tClosed.assign uuidNil 5 ≠ .error .cannotAssignClosed := by
  refine ⟨by decide, by decide, by decide⟩

/-- C4 (amended): for every non-nil assignee id, Assign on a CLOSED
ticket fails with CannotAssignClosed, and on a non-CLOSED ticket sets
the assignee id and stamps updated_at leaving every other field (the
status in particular) unchanged; Assign of the nil id fails with a
validation error regardless of status; at the service level, assigning
a closed ticket leaves the store untouched (zero events appended). -/
theorem C4_assign :
    (∀ (t : Ticket) (a : UUID) (now : Nat), a ≠ uuidNil →
        t.status = StatusClosed → t.assign a now = .error .cannotAssignClosed)
    ∧ (∀ (t : Ticket) (a : UUID) (now : Nat), a ≠ uuidNil →
        t.status ≠ StatusClosed →
          t.assign a now =
            .ok { t with assigneeID := some a, updatedAt := some now })
    ∧ (∀ (t : Ticket) (now : Nat),
        t.assign uuidNil now = .error (.validation []))
    ∧ (∀ (f : Faults) (az : UUID → String → Bool) (db : DB)
        (p : AssignTicketParams) (now : Nat) (t : Ticket),
        getTicketService az db p.ticketID p.actorID = .ok t →
        az p.actorID "tickets:assign" = true →
        p.assigneeID ≠ uuidNil →
        t.status = StatusClosed →
          assignTicketService f az db p now =
            (.error .cannotAssignClosed, db)) := by
  have closedAssign : ∀ (t : Ticket) (a : UUID) (now : Nat), a ≠ uuidNil →
      t.status = StatusClosed → t.assign a now = .error .cannotAssignClosed := by
    intro t a now ha hcl
    unfold Ticket.assign
    simp [ha, hcl]
  refine ⟨closedAssign, ?_, ?_, ?_⟩
  · intro t a now ha hst
    unfold Ticket.assign
    simp [ha, hst]
  · intro t now
    unfold Ticket.assign
    simp
  · intro f az db p now t hget haz ha hcl
    unfold assignTicketService
    simp [hget, haz, closedAssign t p.assigneeID now ha hcl]

/-- C4 witness: assigning agent 9 to the closed sample ticket fails with
CannotAssignClosed both at the aggregate and through the service, and
assigning the open sample ticket succeeds without touching its status. -/
theorem C4_assign_witness :
    ((9 : UUID) ≠ uuidNil ∧ tClosed.status = StatusClosed
      ∧ tOpen.status ≠ StatusClosed
      ∧ getTicketService azAll dbClosed 1 7 = .ok tClosed
      ∧ azAll (7 : UUID) "tickets:assign" = true)
    ∧ tClosed.assign 9 4 = .error .cannotAssignClosed
    ∧ tOpen.assign 9 4 =
        .ok { tOpen with assigneeID := some 9, updatedAt := some 4 }
    ∧ assignTicketService noFaults azAll dbClosed
        { ticketID := 1, assigneeID := 9, actorID := 7 } 4 =
        (.error .cannotAssignClosed, dbClosed) :=
  ⟨⟨by decide, by decide, by decide, by decide, by decide⟩,
    C4_assign.1 tClosed 9 4 (by decide) (by decide),
    C4_assign.2.1 tOpen 9 4 (by decide) (by decide),
    C4_assign.2.2.2 noFaults azAll dbClosed
      { ticketID := 1, assigneeID := 9, actorID := 7 } 4 tClosed
      (by decide) (by decide) (by decide) (by decide)⟩

/-- C5 counterexample: a catch-up request with limit 201 is rejected
with a field validation error — `parseEventQuery` does not clamp the
limit to 200 and serve the request. -/
theorem C5_counterexample :
    parseEventQuery none (some 201) =
        .error (.validation [("limit", "limit exceeds maximum")])
    ∧ parseEventQuery none (some 201) ≠ .ok (0, 200) := by
  refine ⟨by decide, by decide⟩

/-- C5 (amended): the catch-up read defaults to limit 50 (and afterID 0)
when the caller supplies none, passes caller limits between 1 and the
hard maximum 200 through unchanged, and rejects any limit above 200
with a "limit exceeds maximum" validation error instead of clamping. -/
theorem C5_limit_policy :
    (parseEventQuery none none = .ok (0, defaultEventsLimit))
    ∧ (∀ a l : Int, 0 ≤ a → 0 < l → l ≤ maxEventsLimit →
        parseEventQuery (some a) (some l) = .ok (a, l))
    ∧ (∀ (a : Option Int) (l : Int), maxEventsLimit < l →
        ∃ errs, parseEventQuery a (some l) = .error (.validation errs)
          ∧ ("limit", "limit exceeds maximum") ∈ errs) := by
  refine ⟨by decide, ?_, ?_⟩
  · intro a l ha hl hmax
    unfold parseEventQuery
    have h1 : ¬(a < 0) := by omega
    have h2 : ¬(l ≤ 0) := by omega
    have h3 : ¬(maxEventsLimit < l) := by omega
    simp [h1, h2, h3]
  · intro a l hmax
    have h2 : ¬(l ≤ 0) := by unfold maxEventsLimit at hmax; omega
    match a with
    | none =>
        exact ⟨[("limit", "limit exceeds maximum")],
          by unfold parseEventQuery; simp [h2, hmax], by simp⟩
    | some v =>
        by_cases hv : v < 0
        · exact ⟨[("after", "after must be a positive integer"),
            ("limit", "limit exceeds maximum")],
            by unfold parseEventQuery; simp [hv, h2, hmax], by simp⟩
        · exact ⟨[("limit", "limit exceeds maximum")],
            by unfold parseEventQuery; simp [hv, h2, hmax], by simp⟩

/-- C5 witness: afterID 3 with limit 40 is served as requested. -/
theorem C5_limit_policy_witness :
    ((0 : Int) ≤ 3 ∧ (0 : Int) < 40 ∧ (40 : Int) ≤ maxEventsLimit)
    ∧ parseEventQuery (some 3) (some 40) = .ok (3, 40) :=
  ⟨⟨by decide, by decide, by decide⟩,
    C5_limit_policy.2.1 3 40 (by decide) (by decide) (by decide)⟩

/-- C7: dispatching the broadcast for ticket 1 to the room whose first
member has a full outbound queue drives the hub goroutine into the
`h.Unregister <- client` send, from which no step exists — the dispatch
loop blocks forever on the slow consumer instead of evicting it: the
second member's queue never receives the event and the room membership
never decreases. -/
theorem C7_dispatch_deadlock :
    (runSteps 2 slowConsumerCfg).phase = .blockedOnEvict 1 ev7 [2]
    ∧ hubStep (runSteps 2 slowConsumerCfg) = none
    ∧ qLookup (runSteps 2 slowConsumerCfg).queues 2 =
        some { cap := 256, buf := [] }
    ∧ (runSteps 2 slowConsumerCfg).roomMembers = slowConsumerCfg.roomMembers := by
  refine ⟨by decide, by decide, by decide, by decide⟩

/-- C10: processing a SUBSCRIBE_TO_TICKET control message never
consults the authorizer — the resulting hub state is identical under
any two permission oracles, and for every positive ticket id the
session lands in that ticket's room. -/
theorem C10_subscribe_ignores_authorizer :
    ∀ (az1 az2 : UUID → String → Bool) (h : HubState) (cid : Nat)
      (c : ClientInfo) (tid : Int),
      handleSubscribe az1 h cid c tid = handleSubscribe az2 h cid c tid
      ∧ (0 < tid →
          cid ∈ (handleSubscribe az1 h cid c tid).1.roomConns tid
          ∧ tid ∈ (handleSubscribe az1 h cid c tid).1.roomKeys) := by
  intro az1 az2 h cid c tid
  refine ⟨rfl, fun ht => ?_⟩
  have hneg : ¬(tid ≤ 0) := by omega
  unfold handleSubscribe subscribeClientToTicket
  simp [hneg]

/-- C10 witness: subscribing session 1 to ticket 5 puts it in room 5
regardless of the permission oracle. -/
theorem C10_subscribe_ignores_authorizer_witness :
    (0 : Int) < 5
    ∧ 1 ∈ (handleSubscribe azAll newHub 1 cInfo 5).1.roomConns 5
    ∧ 5 ∈ (handleSubscribe azAll newHub 1 cInfo 5).1.roomKeys :=
  ⟨by decide,
    (C10_subscribe_ignores_authorizer azAll (fun _ _ => false) newHub 1 cInfo 5).2
      (by decide)⟩

/-- C3: ticket creation validates all four constraints — title
non-empty and at most 255 bytes, description at most 10000 bytes,
priority in the enum, requester id present — and the returned
collection carries an entry for every violated field, not only the
first one encountered; validation succeeds exactly when no constraint
is violated. -/
theorem C3_validation_collects_all :
    ∀ p : TicketParams,
      ((∃ m, ("title", m) ∈ validateTicketParams p) ↔
        (p.title = "" ∨ MaxTitleLength < p.title.utf8ByteSize))
      ∧ ((∃ m, ("description", m) ∈ validateTicketParams p) ↔
          MaxDescriptionLength < p.description.utf8ByteSize)
      ∧ ((∃ m, ("priority", m) ∈ validateTicketParams p) ↔
          priorityIsValid p.priority = false)
      ∧ ((∃ m, ("requesterId", m) ∈ validateTicketParams p) ↔
          p.requesterID = uuidNil)
      ∧ (p.validate = none ↔
          (¬(p.title = "" ∨ MaxTitleLength < p.title.utf8ByteSize)
            ∧ ¬(MaxDescriptionLength < p.description.utf8ByteSize)
            ∧ priorityIsValid p.priority = true
            ∧ p.requesterID ≠ uuidNil)) := by
  intro p
  unfold TicketParams.validate validateTicketParams
  by_cases h1 : p.title = "" <;>
    by_cases h2 : MaxTitleLength < p.title.utf8ByteSize <;>
      by_cases h3 : MaxDescriptionLength < p.description.utf8ByteSize <;>
        by_cases h4 : priorityIsValid p.priority <;>
          by_cases h5 : p.requesterID = uuidNil <;>
            simp_all

/-! ## Outbox atomicity, one lemma per mutation -/

theorem createTicketService_spec (f : Faults) (az : UUID → String → Bool)
    (db : DB) (p : CreateTicketParams) (now : Nat) :
    ((createTicketService f az db p now).2 = db
      ∧ ∀ t, (createTicketService f az db p now).1 ≠ .ok t)
    ∨ (∃ t ev, createTicketService f az db p now =
        (.ok t, { db with tickets := db.tickets ++ [t]
                          events := db.events ++ [ev]
                          nextTicketID := db.nextTicketID + 1
                          nextEventID := db.nextEventID + 1 })
        ∧ ev.ticketID = t.id ∧ ev.type = EventTicketCreated) := by
  unfold createTicketService
  by_cases haz : az p.requesterID "tickets:create"
  · cases hv : newTicket ⟨p.title, p.description, p.priority, p.requesterID⟩ now with
    | error e => left; simp [haz, hv]
    | ok t0 =>
        obtain ⟨tc, tu, ec, ma, co, cc⟩ := f
        cases tc <;> cases ma <;> cases ec <;> cases co <;>
          first
            | (left; simp [haz, hv, withTransaction, ticketRepoCreate,
                marshalEventPayload, eventRepoCreate, Bind.bind, Except.bind]
               done)
            | (right
               refine ⟨{ t0 with id := db.nextTicketID },
                 mkEvent db.nextEventID db.nextTicketID EventTicketCreated
                   (.ticketSnap { t0 with id := db.nextTicketID }) p.requesterID,
                 ?_, rfl, rfl⟩
               simp [haz, hv, withTransaction, ticketRepoCreate, mkEvent,
                 marshalEventPayload, eventRepoCreate, Bind.bind, Except.bind])
  · left; simp [haz]

theorem updateStatusService_spec (f : Faults) (az : UUID → String → Bool)
    (db : DB) (p : UpdateStatusParams) (now : Nat) :
    ((updateStatusService f az db p now).2 = db
      ∧ ∀ t, (updateStatusService f az db p now).1 ≠ .ok t)
    ∨ (∃ t ev, updateStatusService f az db p now =
        (.ok t, { db with
                  tickets := db.tickets.map (fun u => if u.id == t.id then t else u)
                  events := db.events ++ [ev]
                  nextEventID := db.nextEventID + 1 })
        ∧ ev.ticketID = t.id ∧ ev.type = EventStatusUpdated) := by
  unfold updateStatusService
  by_cases haz : az p.actorID "tickets:update:status"
  · cases hget : ticketRepoGetByID db p.ticketID with
    | none => left; simp [haz, hget]
    | some t0 =>
        cases hup : t0.updateStatus p.status now with
        | error e => left; simp [haz, hget, hup]
        | ok t1 =>
            obtain ⟨tc, tu, ec, ma, co, cc⟩ := f
            cases hfind : ticketRepoGetByID db t1.id with
            | none =>
                cases tu <;>
                  (left
                   simp [haz, hget, hup, hfind, withTransaction, ticketRepoUpdate,
                     marshalEventPayload, eventRepoCreate, Bind.bind, Except.bind])
            | some t2 =>
                cases tu <;> cases ma <;> cases ec <;> cases co <;>
                  first
                    | (left
                       simp [haz, hget, hup, hfind, withTransaction, ticketRepoUpdate,
                         marshalEventPayload, eventRepoCreate, Bind.bind, Except.bind]
                       done)
                    | (right
                       refine ⟨t1, mkEvent db.nextEventID t1.id
                         EventStatusUpdated (.ticketSnap t1) p.actorID, ?_, rfl, rfl⟩
                       simp [haz, hget, hup, hfind, withTransaction, mkEvent,
                         ticketRepoUpdate, marshalEventPayload, eventRepoCreate,
                         Bind.bind, Except.bind])
  · left; simp [haz]

theorem assignTicketService_spec (f : Faults) (az : UUID → String → Bool)
    (db : DB) (p : AssignTicketParams) (now : Nat) :
    ((assignTicketService f az db p now).2 = db
      ∧ ∀ t, (assignTicketService f az db p now).1 ≠ .ok t)
    ∨ (∃ t ev, assignTicketService f az db p now =
        (.ok t, { db with
                  tickets := db.tickets.map (fun u => if u.id == t.id then t else u)
                  events := db.events ++ [ev]
                  nextEventID := db.nextEventID + 1 })
        ∧ ev.ticketID = t.id ∧ ev.type = EventTicketAssigned) := by
  unfold assignTicketService
  cases hget : getTicketService az db p.ticketID p.actorID with
  | error e => left; simp [hget]
  | ok t0 =>
      by_cases haz : az p.actorID "tickets:assign"
      · cases hup : t0.assign p.assigneeID now with
        | error e => left; simp [haz, hget, hup]
        | ok t1 =>
            obtain ⟨tc, tu, ec, ma, co, cc⟩ := f
            cases hfind : ticketRepoGetByID db t1.id with
            | none =>
                cases tu <;>
                  (left
                   simp [haz, hget, hup, hfind, withTransaction, ticketRepoUpdate,
                     marshalEventPayload, eventRepoCreate, Bind.bind, Except.bind])
            | some t2 =>
                cases tu <;> cases ma <;> cases ec <;> cases co <;>
                  first
                    | (left
                       simp [haz, hget, hup, hfind, withTransaction, ticketRepoUpdate,
                         marshalEventPayload, eventRepoCreate, Bind.bind, Except.bind]
                       done)
                    | (right
                       refine ⟨t1, mkEvent db.nextEventID t1.id
                         EventTicketAssigned (.ticketSnap t1) p.actorID, ?_, rfl, rfl⟩
                       simp [haz, hget, hup, hfind, withTransaction, mkEvent,
                         ticketRepoUpdate, marshalEventPayload, eventRepoCreate,
                         Bind.bind, Except.bind])
      · left; simp [haz, hget]

theorem createCommentService_spec (f : Faults) (az : UUID → String → Bool)
    (db : DB) (p : CreateCommentParams) (now : Nat) :
    ((createCommentService f az db p now).2 = db
      ∧ ∀ c, (createCommentService f az db p now).1 ≠ .ok c)
    ∨ (∃ c, createCommentService f az db p now =
        (.ok c, { db with comments := db.comments ++ [c]
                          nextCommentID := db.nextCommentID + 1 })) := by
  unfold createCommentService
  by_cases haz : az p.actorID "comments:create"
  · cases hget : getTicketService az db p.ticketID p.actorID with
    | error e => left; simp [haz, hget]
    | ok t0 =>
        cases hc : newComment p now with
        | error e => left; simp [haz, hget, hc]
        | ok c0 =>
            obtain ⟨tc, tu, ec, ma, co, cc⟩ := f
            cases cc
            · right
              refine ⟨{ c0 with id := db.nextCommentID }, ?_⟩
              simp [haz, hget, hc, commentRepoCreate]
            · left; simp [haz, hget, hc, commentRepoCreate]
  · left; simp [haz]

/-- C1 (amended): every ticket mutation (creation, status update,
assignment) commits the mutated ticket row together with exactly one
event row of the matching type in one atomic unit — any failure inside
the transaction leaves the store exactly as it was and the caller
observes a single failure — but comment creation does not follow the
outbox pattern: it persists the comment row alone, outside any
transaction, and appends no event row (the COMMENT_ADDED event exists
only as an in-memory broadcast). -/
theorem C1_outbox :
    (∀ (f : Faults) (az : UUID → String → Bool) (db : DB)
        (p : CreateTicketParams) (now : Nat),
      ((createTicketService f az db p now).2 = db
        ∧ ∀ t, (createTicketService f az db p now).1 ≠ .ok t)
      ∨ (∃ t ev, createTicketService f az db p now =
          (.ok t, { db with tickets := db.tickets ++ [t]
                            events := db.events ++ [ev]
                            nextTicketID := db.nextTicketID + 1
                            nextEventID := db.nextEventID + 1 })
          ∧ ev.ticketID = t.id ∧ ev.type = EventTicketCreated))
    ∧ (∀ (f : Faults) (az : UUID → String → Bool) (db : DB)
        (p : UpdateStatusParams) (now : Nat),
      ((updateStatusService f az db p now).2 = db
        ∧ ∀ t, (updateStatusService f az db p now).1 ≠ .ok t)
      ∨ (∃ t ev, updateStatusService f az db p now =
          (.ok t, { db with
                    tickets := db.tickets.map (fun u => if u.id == t.id then t else u)
                    events := db.events ++ [ev]
                    nextEventID := db.nextEventID + 1 })
          ∧ ev.ticketID = t.id ∧ ev.type = EventStatusUpdated))
    ∧ (∀ (f : Faults) (az : UUID → String → Bool) (db : DB)
        (p : AssignTicketParams) (now : Nat),
      ((assignTicketService f az db p now).2 = db
        ∧ ∀ t, (assignTicketService f az db p now).1 ≠ .ok t)
      ∨ (∃ t ev, assignTicketService f az db p now =
          (.ok t, { db with
                    tickets := db.tickets.map (fun u => if u.id == t.id then t else u)
                    events := db.events ++ [ev]
                    nextEventID := db.nextEventID + 1 })
          ∧ ev.ticketID = t.id ∧ ev.type = EventTicketAssigned))
    ∧ (∀ (f : Faults) (az : UUID → String → Bool) (db : DB)
        (p : CreateCommentParams) (now : Nat),
      ((createCommentService f az db p now).2 = db
        ∧ ∀ c, (createCommentService f az db p now).1 ≠ .ok c)
      ∨ (∃ c, createCommentService f az db p now =
          (.ok c, { db with comments := db.comments ++ [c]
                            nextCommentID := db.nextCommentID + 1 }))) :=
  ⟨createTicketService_spec, updateStatusService_spec,
    assignTicketService_spec, createCommentService_spec⟩

/-- C1 counterexample: a successful comment creation on the sample
store commits the comment row but the events table is unchanged — no
Event row is committed in the same atomic unit as the comment, so the
claim as stated fails on the comment-creation path. -/
theorem C1_counterexample :
    (createCommentService noFaults azAll db0
        { ticketID := 1, actorID := 7, body := "on it" } 9).2.comments.length
      = db0.comments.length + 1
    ∧ (createCommentService noFaults azAll db0
        { ticketID := 1, actorID := 7, body := "on it" } 9).2.events = db0.events
    ∧ (createCommentService noFaults azAll db0
        { ticketID := 1, actorID := 7, body := "on it" } 9).1 =
        .ok { id := 1, ticketID := 1, authorID := 7, body := "on it", createdAt := 9 } := by
  refine ⟨by decide, by decide, by decide⟩

/-- C9: the hub's room registry never holds an empty room — the empty
hub satisfies the invariant and every hub operation (register,
subscribe, unsubscribe, unregister) preserves it: after each completes,
every ticket id in the rooms map has at least one member session. -/
theorem C9_no_empty_rooms :
    NoEmptyRooms newHub
    ∧ (∀ (h : HubState) (cid : Nat) (c : ClientInfo),
        NoEmptyRooms h → NoEmptyRooms (registerClient h cid c))
    ∧ (∀ (h : HubState) (cid : Nat) (c : ClientInfo) (tid : Int),
        NoEmptyRooms h → NoEmptyRooms (subscribeClientToTicket h cid c tid).1)
    ∧ (∀ (h : HubState) (cid : Nat) (c : ClientInfo) (tid : Int),
        NoEmptyRooms h → NoEmptyRooms (unsubscribeClientFromTicket h cid c tid).1)
    ∧ (∀ (h : HubState) (cid : Nat) (c : ClientInfo),
        NoEmptyRooms h → NoEmptyRooms (unregisterClient h cid c).1) := by
  refine ⟨?_, ?_, ?_, ?_, ?_⟩
  · intro t ht
    simp [newHub] at ht
  · intro h cid c hinv t ht
    exact hinv t ht
  · intro h cid c tid hinv t ht
    simp only [subscribeClientToTicket] at ht ⊢
    rcases Finset.mem_insert.mp ht with rfl | htk
    · simp
    · by_cases he : t = tid
      · subst he; simp
      · simpa [he] using hinv t htk
  · intro h cid c tid hinv t ht
    simp only [unsubscribeClientFromTicket] at ht ⊢
    by_cases hc : tid ∈ h.roomKeys ∧ (h.roomConns tid).erase cid = ∅
    · rw [if_pos hc] at ht
      have := Finset.mem_erase.mp ht
      simp [this.1, this.2, hinv t this.2]
    · rw [if_neg hc] at ht
      by_cases he : t = tid ∧ tid ∈ h.roomKeys
      · rcases he with ⟨rfl, hk⟩
        intro habs
        exact hc ⟨hk, by simpa [hk] using habs⟩
      · simpa [he] using hinv t ht
  · intro h cid c hinv t ht
    simp only [unregisterClient] at ht ⊢
    obtain ⟨htk, htp⟩ := Finset.mem_filter.mp ht
    by_cases hs : t ∈ c.subs
    · simp only [hs, htk, and_self, if_pos, true_and]
      intro habs
      exact htp (by simp [hs, habs])
    · simpa [hs] using hinv t htk

/-- C9 witness: on the empty hub, subscribing session 1 to ticket 5
yields a registry with no empty room. -/
theorem C9_no_empty_rooms_witness :
    NoEmptyRooms newHub
    ∧ NoEmptyRooms (subscribeClientToTicket newHub 1 cInfo 5).1 :=
  ⟨C9_no_empty_rooms.1,
    C9_no_empty_rooms.2.2.1 newHub 1 cInfo 5 C9_no_empty_rooms.1⟩

theorem unregister_clientKeys (h : HubState) (cid : Nat) (c : ClientInfo) :
    (unregisterClient h cid c).1.clientKeys =
      h.clientKeys.filter (fun u =>
        ¬(u = c.userID ∧ cid ∈ h.clientConns u ∧ (h.clientConns u).erase cid = ∅)) :=
  rfl

theorem unregister_clientConns (h : HubState) (cid : Nat) (c : ClientInfo) (u : UUID) :
    (unregisterClient h cid c).1.clientConns u =
      if u = c.userID ∧ u ∈ h.clientKeys then (h.clientConns u).erase cid
      else h.clientConns u :=
  rfl

theorem unregister_roomKeys (h : HubState) (cid : Nat) (c : ClientInfo) :
    (unregisterClient h cid c).1.roomKeys =
      h.roomKeys.filter (fun t => ¬(t ∈ c.subs ∧ (h.roomConns t).erase cid = ∅)) :=
  rfl

theorem unregister_roomConns (h : HubState) (cid : Nat) (c : ClientInfo) (t : Int) :
    (unregisterClient h cid c).1.roomConns t =
      if t ∈ c.subs ∧ t ∈ h.roomKeys then (h.roomConns t).erase cid
      else h.roomConns t :=
  rfl

theorem unregister_session (h : HubState) (cid : Nat) (c : ClientInfo) :
    (unregisterClient h cid c).2 = closeSend c :=
  rfl

theorem closeSend_userID (c : ClientInfo) : (closeSend c).userID = c.userID := by
  unfold closeSend; split <;> rfl

theorem closeSend_subs (c : ClientInfo) : (closeSend c).subs = c.subs := by
  unfold closeSend; split <;> rfl

theorem closeSend_idem (c : ClientInfo) : closeSend (closeSend c) = closeSend c := by
  unfold closeSend; by_cases hc : c.sendClosed <;> simp [hc]

/-- C8: `Unregister(session)` removes the session from every room it is
a member of, removes it from the user index (dropping the user entry
with its last connection), and closes the outbound queue exactly once;
a second Unregister of the same session leaves the hub registries
unchanged and does not close the queue again.  The hypothesis that room
membership is covered by the session's subscription set is the
invariant the source maintains (the subscription set is the cleanup
path's source of truth). -/
theorem C8_unregister_idempotent :
    ∀ (h : HubState) (cid : Nat) (c : ClientInfo),
      (∀ t ∈ h.roomKeys, cid ∈ h.roomConns t → t ∈ c.subs) →
      c.sendClosed = false →
        (∀ t ∈ (unregisterClient h cid c).1.roomKeys,
            cid ∉ (unregisterClient h cid c).1.roomConns t)
        ∧ (c.userID ∈ h.clientKeys →
            cid ∉ (unregisterClient h cid c).1.clientConns c.userID)
        ∧ (c.userID ∈ h.clientKeys → cid ∈ h.clientConns c.userID →
            (h.clientConns c.userID).erase cid = ∅ →
              c.userID ∉ (unregisterClient h cid c).1.clientKeys)
        ∧ (unregisterClient h cid c).2.closeCount = c.closeCount + 1
        ∧ HubEq (unregisterClient (unregisterClient h cid c).1 cid
            (unregisterClient h cid c).2).1 (unregisterClient h cid c).1
        ∧ (unregisterClient (unregisterClient h cid c).1 cid
            (unregisterClient h cid c).2).2 = (unregisterClient h cid c).2 := by
  intro h cid c hsubs hclosed
  have hcs : closeSend c = { c with sendClosed := true, closeCount := c.closeCount + 1 } := by
    simp [closeSend, hclosed]
  refine ⟨?_, ?_, ?_, ?_, ?_, ?_⟩
  · intro t ht
    simp only [unregisterClient] at ht ⊢
    obtain ⟨htk, htp⟩ := Finset.mem_filter.mp ht
    by_cases hs : t ∈ c.subs
    · simp only [hs, htk, and_self, if_pos]
      exact Finset.not_mem_erase cid _
    · simp only [hs, false_and, if_neg, not_false_eq_true]
      intro habs
      exact hs (hsubs t htk habs)
  · intro hk
    simp only [unregisterClient, hk, and_self, if_pos]
    exact Finset.not_mem_erase cid _
  · intro hk hmem hempty
    rw [unregister_clientKeys, Finset.mem_filter]
    rintro ⟨-, habs⟩
    exact habs ⟨rfl, hmem, hempty⟩
  · rw [unregister_session, hcs]
  · refine ⟨?_, ?_, ?_, ?_⟩
    · rw [unregister_session, unregister_clientKeys, closeSend_userID]
      apply Finset.filter_true_of_mem
      intro u hu
      have hu0 : u ∈ h.clientKeys := Finset.mem_of_mem_filter u hu
      rintro ⟨hue, hmem, -⟩
      rw [unregister_clientConns, if_pos ⟨hue, hu0⟩] at hmem
      exact absurd hmem (Finset.not_mem_erase cid _)
    · intro u hu
      rw [unregister_session, unregister_clientConns, closeSend_userID]
      by_cases hcond : u = c.userID ∧ u ∈ (unregisterClient h cid c).1.clientKeys
      · obtain ⟨hue, hk1⟩ := hcond
        rw [if_pos ⟨hue, hk1⟩]
        have hu0 : u ∈ h.clientKeys := by
          rw [unregister_clientKeys] at hk1
          exact Finset.mem_of_mem_filter u hk1
        rw [unregister_clientConns, if_pos ⟨hue, hu0⟩, Finset.erase_idem]
      · rw [if_neg hcond]
    · rw [unregister_session, unregister_roomKeys, closeSend_subs]
      apply Finset.filter_true_of_mem
      intro t ht
      rw [unregister_roomKeys] at ht
      obtain ⟨htk0, htp⟩ := Finset.mem_filter.mp ht
      rintro ⟨hts, hemp⟩
      rw [unregister_roomConns, if_pos ⟨hts, htk0⟩, Finset.erase_idem] at hemp
      exact htp ⟨hts, hemp⟩
    · intro t ht
      rw [unregister_session, unregister_roomConns, closeSend_subs]
      by_cases hcond : t ∈ c.subs ∧ t ∈ (unregisterClient h cid c).1.roomKeys
      · obtain ⟨hts, hk1⟩ := hcond
        rw [if_pos ⟨hts, hk1⟩]
        have ht0 : t ∈ h.roomKeys := by
          rw [unregister_roomKeys] at hk1
          exact Finset.mem_of_mem_filter t hk1
        rw [unregister_roomConns, if_pos ⟨hts, ht0⟩, Finset.erase_idem]
      · rw [if_neg hcond]
  · rw [unregister_session, unregister_session, closeSend_idem]


theorem getLast?_mem {α : Type} {l : List α} {a : α} (h : l.getLast? = some a) :
    a ∈ l := by
  induction l with
  | nil => simp at h
  | cons x xs ih =>
      cases xs with
      | nil =>
          simp [List.getLast?] at h
          simp [h]
      | cons y ys =>
          rw [List.getLast?_cons_cons] at h
          exact List.mem_cons_of_mem x (ih h)

theorem le_getLast?_of_sorted :
    ∀ {l : List Event} {last : Event}, SortedIds l → l.getLast? = some last →
      ∀ e ∈ l, e.id ≤ last.id := by
  intro l
  induction l with
  | nil => intro last _ h; simp at h
  | cons x xs ih =>
      intro last hs hl e he
      cases xs with
      | nil =>
          simp [List.getLast?] at hl
          have : e = x := by simpa using he
          subst this
          rw [hl]
      | cons y ys =>
          rw [List.getLast?_cons_cons] at hl
          rcases List.mem_cons.mp he with rfl | hmem
          · have hcross := (List.pairwise_cons.mp hs).1
            exact le_of_lt (hcross last (getLast?_mem hl))
          · exact ih (List.pairwise_cons.mp hs).2 hl e hmem

theorem take_append_le {α : Type} (l1 l2 : List α) (k : Nat) (hk : k ≤ l1.length) :
    (l1 ++ l2).take k = l1.take k := by
  rw [List.take_append_eq_append_take, Nat.sub_eq_zero_of_le hk]
  simp

theorem take_length_take {α : Type} (l : List α) (n : Nat) :
    l.take (l.take n).length = l.take n := by
  rw [List.length_take]
  by_cases h : n ≤ l.length
  · rw [Nat.min_eq_left h]
  · push_neg at h
    rw [Nat.min_eq_right (le_of_lt h), List.take_length,
      List.take_of_length_le (le_of_lt h)]

theorem filter_gt_getLast_eq_drop (F : List Event) (k : Nat) (last : Event)
    (hs : SortedIds F) (hl : (F.take k).getLast? = some last) :
    F.filter (fun e => decide (last.id < e.id)) = F.drop k := by
  have hdecomp : F = F.take k ++ F.drop k := (List.take_append_drop k F).symm
  have hsTake : SortedIds (F.take k) :=
    List.Pairwise.sublist (List.take_sublist k F) hs
  have hle : ∀ e ∈ F.take k, e.id ≤ last.id := le_getLast?_of_sorted hsTake hl
  have hcross : ∀ x ∈ F.take k, ∀ b ∈ F.drop k, x.id < b.id := by
    have hs2 : SortedIds (F.take k ++ F.drop k) := hdecomp ▸ hs
    exact (List.pairwise_append.mp hs2).2.2
  have hgt : ∀ b ∈ F.drop k, last.id < b.id :=
    fun b hb => hcross last (getLast?_mem hl) b hb
  conv_lhs => rw [hdecomp]
  rw [List.filter_append]
  have h1 : (F.take k).filter (fun e => decide (last.id < e.id)) = [] := by
    rw [List.filter_eq_nil_iff]
    intro e he
    simpa using not_lt_of_ge (hle e he)
  have h2 : (F.drop k).filter (fun e => decide (last.id < e.id)) = F.drop k := by
    rw [List.filter_eq_self]
    intro e he
    simpa using hgt e he
  rw [h1, h2, List.nil_append]

theorem first_page_take (log newEvts : List Event) (tid a : Int) (n : Nat) :
    listTicketEvents log tid a n =
      ((log ++ newEvts).filter
        (fun e => e.ticketID == tid && decide (a < e.id))).take
          (listTicketEvents log tid a n).length := by
  unfold listTicketEvents
  rw [List.filter_append]
  rw [take_append_le _ _ _ (by rw [List.length_take]; exact Nat.min_le_right _ _)]
  rw [take_length_take]


/-- C6: `ListByTicket(ticketID, afterID, limit)` returns only events of
that ticket with id strictly greater than afterID, in strictly
ascending id order, truncated to the limit; and a follow-up call whose
afterID is the last id returned by the previous call (over the possibly
grown log) returns exactly the continuation of the filtered stream past
the first page — no event is repeated and none is skipped. -/
theorem C6_list_by_ticket :
    (∀ (log : List Event) (tid a : Int) (n : Nat) (e : Event),
        e ∈ listTicketEvents log tid a n → e.ticketID = tid ∧ a < e.id)
    ∧ (∀ (log : List Event) (tid a : Int) (n : Nat),
        SortedIds log → SortedIds (listTicketEvents log tid a n))
    ∧ (∀ (log : List Event) (tid a : Int) (n : Nat),
        (listTicketEvents log tid a n).length ≤ n)
    ∧ (∀ (log newEvts : List Event) (tid a : Int) (n m : Nat) (last : Event),
        SortedIds (log ++ newEvts) →
        (listTicketEvents log tid a n).getLast? = some last →
          listTicketEvents (log ++ newEvts) tid last.id m =
            (((log ++ newEvts).filter
                (fun e => e.ticketID == tid && decide (a < e.id))).drop
              (listTicketEvents log tid a n).length).take m) := by
  have memSpec : ∀ (log : List Event) (tid a : Int) (n : Nat) (e : Event),
      e ∈ listTicketEvents log tid a n → e.ticketID = tid ∧ a < e.id := by
    intro log tid a n e he
    unfold listTicketEvents at he
    have hmem := (List.take_sublist _ _).subset he
    have := List.mem_filter.mp hmem
    simpa using this.2
  refine ⟨memSpec, ?_, ?_, ?_⟩
  · intro log tid a n hs
    exact List.Pairwise.sublist
      ((List.take_sublist _ _).trans (List.filter_sublist _)) hs
  · intro log tid a n
    unfold listTicketEvents
    exact List.length_take_le _ _
  · intro log newEvts tid a n m last hs hl
    have hfF := first_page_take log newEvts tid a n
    have hsF : SortedIds ((log ++ newEvts).filter
        (fun e => e.ticketID == tid && decide (a < e.id))) :=
      List.Pairwise.sublist (List.filter_sublist _) hs
    have hdrop := filter_gt_getLast_eq_drop _
      (listTicketEvents log tid a n).length last hsF (by rw [← hfF]; exact hl)
    have haLast : a < last.id :=
      (memSpec log tid a n last (getLast?_mem hl)).2
    have hQ : (log ++ newEvts).filter
        (fun e => e.ticketID == tid && decide (last.id < e.id)) =
        ((log ++ newEvts).filter
          (fun e => e.ticketID == tid && decide (a < e.id))).filter
            (fun e => decide (last.id < e.id)) := by
      rw [List.filter_filter]
      apply List.filter_congr
      intro x hx
      by_cases h1 : x.ticketID == tid <;> by_cases h2 : last.id < x.id
      · have h3 : a < x.id := lt_trans haLast h2
        simp [h1, h2, h3]
      · simp [h1, h2]
      · simp [h1, h2]
      · simp [h1, h2]
    unfold listTicketEvents
    rw [hQ, hdrop]
    rfl


/-- C6 witness: on the sample log, the page after the first two ticket-1
events continues exactly where the first page stopped. -/
theorem C6_list_by_ticket_witness :
    SortedIds (logSample ++ newSample)
    ∧ (listTicketEvents logSample 1 0 2).getLast? = some ev3
    ∧ listTicketEvents (logSample ++ newSample) 1 ev3.id 5 =
        (((logSample ++ newSample).filter
            (fun e => e.ticketID == 1 && decide ((0 : Int) < e.id))).drop
          (listTicketEvents logSample 1 0 2).length).take 5 :=
  ⟨by decide, by decide,
    C6_list_by_ticket.2.2.2 logSample newSample 1 0 2 5 ev3
      (by decide) (by decide)⟩

/-- C8 witness: unregistering session 1 of user 7 from the sample hub
closes its queue once, and a second unregister changes nothing. -/
theorem C8_unregister_idempotent_witness :
    (unregisterClient hubSample 1 cInfo5).2.closeCount = cInfo5.closeCount + 1
    ∧ HubEq (unregisterClient (unregisterClient hubSample 1 cInfo5).1 1
        (unregisterClient hubSample 1 cInfo5).2).1
        (unregisterClient hubSample 1 cInfo5).1
    ∧ (unregisterClient (unregisterClient hubSample 1 cInfo5).1 1
        (unregisterClient hubSample 1 cInfo5).2).2 =
        (unregisterClient hubSample 1 cInfo5).2 :=
  ⟨(C8_unregister_idempotent hubSample 1 cInfo5
      (by decide) (by decide)).2.2.2.1,
    (C8_unregister_idempotent hubSample 1 cInfo5
      (by decide) (by decide)).2.2.2.2.1,
    (C8_unregister_idempotent hubSample 1 cInfo5
      (by decide) (by decide)).2.2.2.2.2⟩

end ServiceDesk
